import Mathlib

/-!
Verification of the Dependent Multi-Step Query Execution Engine
(plan runner, placeholder resolver, result formatter, engine factory,
plan ingestion and the generate/validate acquisition loop).

The definitions below are a shallow embedding of the repository's
Python sources:
  service/execute_and_format.py  (runner, resolver, formatter)
  service/database_service.py    (engine factory)
  service/generate_sql.py        (plan ingestion / structural checks)
  app.py                         (generate/validate retry loop)

Modelling conventions:
  - SQL cell values are an inductive `Value` (ints and strings).
  - Python dicts whose only observed operation is key lookup (rows,
    step result sets, parameter maps, JSON objects) are association
    lists with first-match lookup (`lookupKey`).
  - A SQL template is a token list (literal text / placeholder), the
    parsed form of what the regex scan over the template produces.
  - External effects (the SQLAlchemy connection, the LLM calls, the
    file system) are oracle parameters of the embedded functions.
-/

inductive Value where
  | int (n : Int)
  | str (s : String)
deriving DecidableEq

/-- Python `str(v)` on a cell value. -/
def strOfValue : Value → String
  | Value.int n => toString n
  | Value.str s => s

/-- One result row: ordered mapping from column name to value. -/
abbrev Row := List (String × Value)

/-- First-match association-list lookup, the `d[k]` / `k in d` of a
Python dict restricted to the lookups the code performs. -/
def lookupKey {α : Type} : List (String × α) → String → Option α
  | [], _ => none
  | (k, v) :: rest, key => if key = k then some v else lookupKey rest key

inductive ParamValue where
  | scalar (v : Value)
  | list (vs : List Value)
deriving DecidableEq

/-- The `step_results_for_deps` dict of the runner. -/
abbrev StepResults := List (String × List Row)

/-- The bound-parameter mapping produced by the resolver. -/
abbrev Params := List (String × ParamValue)

/-- Python `s.endswith(suf)`, computed on the character list (the
builtin `String.endsWith` is not kernel-reducible). -/
def strEndsWith (s suf : String) : Bool :=
  List.isSuffixOf suf.data s.data

/-- Python `s[:-n]`: drop the last `n` characters. -/
def strDropRight (s : String) (n : Nat) : String :=
  String.mk (s.data.take (s.data.length - n))

/-- `param_name.endswith(('_ids', '_id', 's'))` from
`_extract_parameter_value` (execute_and_format.py line 97). -/
def isListParameter (p : String) : Bool :=
  strEndsWith p "_ids" || strEndsWith p "_id" || strEndsWith p "s"

/-- Column-name guess by singularizing the parameter
(execute_and_format.py lines 129-133). -/
def singularize (p : String) : String :=
  if strEndsWith p "_ids" then strDropRight p 4 ++ "_id"
  else if strEndsWith p "s" then strDropRight p 1
  else p

/-- Scalar branch of the row loop (lines 108-113): exact column match
first, else the lone value of a single-column row, first hit wins. -/
def findScalarInRows (p : String) : List Row → Option Value
  | [] => none
  | row :: rest =>
    match lookupKey row p with
    | some v => some v
    | none =>
      match row with
      | [single] => some single.2
      | _ => findScalarInRows p rest

/-- Scalar scan over the `depends_on` list (lines 100-113); a
dependency missing from `step_results`, or present with an empty row
list, is skipped. -/
def findScalar (p : String) (sr : StepResults) : List String → Option Value
  | [] => none
  | dep :: rest =>
    match lookupKey sr dep with
    | none => findScalar p sr rest
    | some rows =>
      match findScalarInRows p rows with
      | some v => some v
      | none => findScalar p sr rest

/-- List branch per-row collection (lines 116-137): single-column rows
contribute their lone value, else an exact name match, else the
singularized guess; otherwise the row contributes nothing. -/
def collectFromRow (p : String) (row : Row) : Option Value :=
  match row with
  | [single] => some single.2
  | _ =>
    match lookupKey row p with
    | some v => some v
    | none => lookupKey row (singularize p)

def collectInRows (p : String) (rows : List Row) : List Value :=
  rows.filterMap (collectFromRow p)

/-- Aggregation across all rows of all listed dependencies in order. -/
def collectListValues (p : String) (sr : StepResults) : List String → List Value
  | [] => []
  | dep :: rest =>
    (match lookupKey sr dep with
     | none => []
     | some rows => collectInRows p rows) ++ collectListValues p sr rest

/-- `_extract_parameter_value` (execute_and_format.py lines 91-148).
The Python `tuple(set(values))` has unspecified element order; it is
modelled as `List.dedup`, and theorems about it only use membership. -/
def _extract_parameter_value (p : String) (sr : StepResults) (deps : List String) :
    Option ParamValue :=
  if isListParameter p then
    match collectListValues p sr deps with
    | [] => none
    | vs => some (ParamValue.list vs.dedup)
  else
    (findScalar p sr deps).map ParamValue.scalar

/-- A parsed SQL template token: literal text, or a placeholder that
the source's regex scan for double-braced identifiers would find. -/
inductive Tok where
  | lit (s : String)
  | ph (name : String)
deriving DecidableEq

/-- Left-to-right substitution pass of `re.sub` with the `replacer`
closure of `_resolve_query_parameters` (lines 71-85): an already bound
name is reused, a fresh name is extracted and bound, and an
unresolvable name aborts the whole substitution. -/
def resolveToks (sr : StepResults) (deps : List String) :
    List Tok → Params → Option (String × Params)
  | [], params => some ("", params)
  | Tok.lit s :: rest, params =>
    match resolveToks sr deps rest params with
    | none => none
    | some (q, ps) => some (s ++ q, ps)
  | Tok.ph name :: rest, params =>
    if (lookupKey params name).isSome then
      match resolveToks sr deps rest params with
      | none => none
      | some (q, ps) => some (":" ++ name ++ q, ps)
    else
      match _extract_parameter_value name sr deps with
      | none => none
      | some v =>
        match resolveToks sr deps rest (params ++ [(name, v)]) with
        | none => none
        | some (q, ps) => some (":" ++ name ++ q, ps)

/-- `_resolve_query_parameters` (lines 63-89): `none` models the
`(None, None)` return after the caught `ValueError`. -/
def _resolve_query_parameters (template : List Tok) (sr : StepResults)
    (deps : List String) : Option (String × Params) :=
  resolveToks sr deps template []

/-- Python string format padding: left-justify to width `w`. -/
def padFmt (s : String) (w : Nat) : String :=
  s ++ String.mk (List.replicate (w - s.length) ' ')

/-- `str(row.get(col, ''))`. -/
def rowGetStr (row : Row) (col : String) : String :=
  match lookupKey row col with
  | some v => strOfValue v
  | none => ""

/-- `max(len(col), max((len(str(row.get(col, ''))) for row in rows), default=0))`
(execute_and_format.py line 163). -/
def colWidth (rows : List Row) (col : String) : Nat :=
  max col.length ((rows.map (fun r => (rowGetStr r col).length)).foldr max 0)

/-- `list(raw_results[0].keys())`. -/
def columnsOf : List Row → List String
  | [] => []
  | row :: _ => row.map Prod.fst

def headerLine (rows : List Row) : String :=
  String.intercalate " | " ((columnsOf rows).map (fun c => padFmt c (colWidth rows c)))

def dataLine (rows : List Row) (row : Row) : String :=
  String.intercalate " | "
    ((columnsOf rows).map (fun c => padFmt (rowGetStr row c) (colWidth rows c)))

/-- The `result_lines` list built by `_format_step_result`
(lines 160-170): title, header, dash rule, one line per row.  The
source's generic exception fallback (lines 171-176) is unreachable in
this total model and is not represented. -/
def formatResultLines (sid : Nat) (desc : String) (rows : List Row) : List String :=
  ("步骤 " ++ toString sid ++ " - " ++ desc ++ ": (共 " ++ toString rows.length ++ " 条记录)")
  :: headerLine rows
  :: String.mk (List.replicate (headerLine rows).length '-')
  :: rows.map (dataLine rows)

/-- `_format_step_result` (execute_and_format.py lines 151-178). -/
def _format_step_result (sid : Nat) (desc : String) (rows : List Row) : String :=
  if rows.isEmpty then
    "步骤 " ++ toString sid ++ " (" ++ desc ++ "): 未找到数据"
  else
    String.intercalate "\n" (formatResultLines sid desc rows)

/-- One validated plan step (the required wire fields). -/
structure Step where
  step : Nat
  query_id : String
  description : String
  sql : List Tok
  depends_on : List String
  table_used : String
deriving DecidableEq

/-- The per-step output dict; the optional `error` key is an `Option`. -/
structure OutputRecord where
  description : String
  formatted_text : String
  raw_results : List Row
  error : Option String
deriving DecidableEq

/-- The backing store: `connection.execute(text(sql), params)`
returning rows or raising `SQLAlchemyError` (modelled as `Except`). -/
abbrev DB := String → Params → Except String (List Row)

/-- `step_results_for_deps[query_id] = raw_results`: dict assignment,
modelled by prepending; only key lookup is ever observed. -/
def srInsert (sr : StepResults) (k : String) (rows : List Row) : StepResults :=
  (k, rows) :: sr

/-- Body of the per-step loop of
`execute_queries_and_format_with_dependencies` (lines 24-59): returns
the step's output record and the updated step-result dict. -/
def runStep (exec : DB) (sr : StepResults) (st : Step) : OutputRecord × StepResults :=
  match _resolve_query_parameters st.sql sr st.depends_on with
  | none =>
    ({ description := st.description,
       formatted_text := "Step " ++ toString st.step ++ " (" ++ st.description ++
         "): Execution failed because a dependent query returned no results.",
       raw_results := [], error := some "Dependency resolution failed" }, sr)
  | some (q, params) =>
    match exec q params with
    | Except.error e =>
      ({ description := st.description,
         formatted_text := "Step " ++ toString st.step ++ " failed to execute: " ++ e ++
           "\nSQL: " ++ q,
         raw_results := [], error := some e }, sr)
    | Except.ok rows =>
      let sr2 := srInsert sr st.query_id rows
      if rows.isEmpty then
        ({ description := st.description,
           formatted_text := "Step " ++ toString st.step ++ " (" ++ st.description ++
             "): No matching data found",
           raw_results := [], error := none }, sr2)
      else
        ({ description := st.description,
           formatted_text := _format_step_result st.step st.description rows,
           raw_results := rows, error := none }, sr2)

/-- The whole per-step loop: the ordered list of output records. -/
def runSteps (exec : DB) : List Step → StepResults → List OutputRecord
  | [], _ => []
  | st :: rest, sr =>
    (runStep exec sr st).1 :: runSteps exec rest (runStep exec sr st).2

/-- The step-result dict after the loop has processed the given steps. -/
def runState (exec : DB) : List Step → StepResults → StepResults
  | [], sr => sr
  | st :: rest, sr => runState exec rest (runStep exec sr st).2

/-- Database connection configuration (the fields the engine factory
reads; host/user/etc. only feed connection strings). -/
structure DBConfig where
  database_type : Option String
  database_path : String

/-- `DatabaseService._create_engine` (database_service.py lines 15-54).
`isfile` is the `os.path.isfile` answer for the sqlite path and
`engineError` an `SQLAlchemyError` raised by `create_engine`, both
external facts passed as oracles.  An `SQLAlchemyError` is re-raised
as `ConnectionError` with a wrapped message; a missing sqlite file
raises `FileNotFoundError`; an unrecognized type raises `ValueError`
(quotes around the type name in the source message are elided). -/
def _create_engine (cfg : DBConfig) (isfile : Bool) (engineError : Option String) :
    Except String Unit :=
  let wrap : Except String Unit :=
    match engineError with
    | some e => Except.error ("Failed to connect to the database: " ++ e)
    | none => Except.ok ()
  match cfg.database_type with
  | none => Except.error "Unsupported database type: None"
  | some t =>
    if t = "sqlite" then
      if isfile then wrap
      else Except.error ("Database file not found: " ++ cfg.database_path)
    else if t = "mysql" then wrap
    else if t = "postgresql" then wrap
    else if t = "sqlserver" then wrap
    else Except.error ("Unsupported database type: " ++ t)

/-- `execute_queries_and_format_with_dependencies`
(execute_and_format.py lines 7-61): the engine-creation try/except
around the per-step loop. -/
def execute_queries_and_format_with_dependencies (cfg : DBConfig) (isfile : Bool)
    (engineError : Option String) (exec : DB) (plan : List Step) : List OutputRecord :=
  match _create_engine cfg isfile engineError with
  | Except.error e =>
    [{ description := "Database Connection Error",
       formatted_text := "Error: " ++ e, raw_results := [], error := some e }]
  | Except.ok _ => runSteps exec plan []

/-- JSON values, for the oracle's raw plan payload. -/
inductive Json where
  | null
  | bool (b : Bool)
  | num (n : Int)
  | str (s : String)
  | arr (elems : List Json)
  | obj (fields : List (String × Json))

/-- Python `key in container` as used by the ingestion checks: key
membership for dicts, value membership for lists.  (On scalars the
source would raise `TypeError`; no modelled claim reaches that.) -/
def jsonHasKey : Json → String → Bool
  | Json.obj fields, k => (lookupKey fields k).isSome
  | Json.arr elems, k =>
    elems.any (fun e => match e with | Json.str s => s == k | _ => false)
  | _, _ => false

def jsonGet : Json → String → Json
  | Json.obj fields, k => (lookupKey fields k).getD Json.null
  | _, _ => Json.null

def requiredTopKeys : List String :=
  ["execution_plan", "tables_used", "total_steps", "has_dependencies"]

def stepRequiredKeys : List String :=
  ["step", "query_id", "description", "sql", "depends_on", "table_used"]

def checkTopKeys (j : Json) : List String → Except String Unit
  | [] => Except.ok ()
  | k :: ks =>
    if jsonHasKey j k then checkTopKeys j ks
    else Except.error ("模型返回的JSON缺少键 " ++ k)

def checkStepKeys (i : Nat) (s : Json) : List String → Except String Unit
  | [] => Except.ok ()
  | k :: ks =>
    if jsonHasKey s k then checkStepKeys i s ks
    else Except.error ("执行计划第" ++ toString (i + 1) ++ "步缺少键 " ++ k)

def checkSteps : Nat → List Json → Except String Unit
  | _, [] => Except.ok ()
  | i, s :: rest =>
    match checkStepKeys i s stepRequiredKeys with
    | Except.error e => Except.error e
    | Except.ok _ => checkSteps (i + 1) rest

/-- The structural validation of `generate_sql_with_dependencies`
(generate_sql.py lines 183-210): required top-level keys, list-typed
`execution_plan`, required per-step keys.  The source additionally
rewrites each accepted step's `sql` through the dialect translator and
attaches `optimization_info`; no claim depends on the accepted value,
so the plan is returned unchanged here. -/
def checkPlan (j : Json) : Except String Json :=
  match checkTopKeys j requiredTopKeys with
  | Except.error e => Except.error e
  | Except.ok _ =>
    match jsonGet j "execution_plan" with
    | Json.arr steps =>
      match checkSteps 0 steps with
      | Except.error e => Except.error e
      | Except.ok _ => Except.ok j
    | _ => Except.error "execution_plan 必须是列表格式"

/-- `generate_sql_with_dependencies` around the LLM call: `none` is a
`json.loads` failure; any `ValueError` from the structural checks is
converted into the returned error string (lines 212-213). -/
def generate_sql_with_dependencies (llmOutput : Option Json) : Except String Json :=
  match llmOutput with
  | none => Except.error "错误：解析模型返回的JSON失败。"
  | some j =>
    match checkPlan j with
    | Except.ok p => Except.ok p
    | Except.error e => Except.error ("错误：解析模型返回的JSON失败。错误详情: " ++ e)

/-- The validator verdict as read by app.py (`is_valid`, `reason`). -/
structure Validation where
  is_valid : Bool
  reason : String

/-- Outcome of the generate/validate loop of app.py (lines 216-256),
instrumented with oracle-call, validator-call and rejection counters. -/
inductive AcqResult where
  | succeeded (plan : Json) (oracleCalls validatorCalls rejections : Nat)
  | exhausted (lastError : Option String) (oracleCalls validatorCalls rejections : Nat)

def AcqResult.oracleCount : AcqResult → Nat
  | AcqResult.succeeded _ o _ _ => o
  | AcqResult.exhausted _ o _ _ => o

/-- `final_execution_plan` after the loop: only a `Succeeded` outcome
carries a plan on to store execution (app.py lines 257-268). -/
def planToExecute : AcqResult → Option Json
  | AcqResult.succeeded p _ _ _ => some p
  | AcqResult.exhausted _ _ _ _ => none

/-- The `for attempt in range(1, max_attempts + 1)` loop of app.py
(lines 219-255): a string result from generation (`Except.error`) is a
failed attempt that skips the validator and leaves `last_error`
unchanged; a rejected plan stores the validator reason; an accepted
plan breaks out immediately. -/
def acquireAux (oracle : Nat → Option String → Except String Json)
    (validator : Json → Validation) :
    Nat → Nat → Option String → Nat → Nat → Nat → AcqResult
  | _, 0, lastError, o, v, rj => AcqResult.exhausted lastError o v rj
  | attempt, r + 1, lastError, o, v, rj =>
    match oracle attempt lastError with
    | Except.error _ => acquireAux oracle validator (attempt + 1) r lastError (o + 1) v rj
    | Except.ok plan =>
      let res := validator plan
      if res.is_valid then AcqResult.succeeded plan (o + 1) (v + 1) rj
      else acquireAux oracle validator (attempt + 1) r (some res.reason) (o + 1) (v + 1) (rj + 1)

def acquisitionLoop (maxAttempts : Nat) (oracle : Nat → Option String → Except String Json)
    (validator : Json → Validation) : AcqResult :=
  acquireAux oracle validator 1 maxAttempts none 0 0 0

/-! Concrete inputs referenced by the claim theorems and witnesses. -/

def emptyExec : DB := fun _ _ => Except.ok []

def boomExec : DB := fun _ _ => Except.error "boom"

def stepOrdinalTwo : Step :=
  { step := 2, query_id := "q_b", description := "listed first",
    sql := [Tok.lit "SELECT 2"], depends_on := [], table_used := "t" }

def stepOrdinalOne : Step :=
  { step := 1, query_id := "q_a", description := "listed second",
    sql := [Tok.lit "SELECT 1"], depends_on := [], table_used := "t" }

def srDept : StepResults := [("find_top_dept", [[("department_id", Value.int 7)]])]

def deptTemplate : List Tok :=
  [Tok.lit "SELECT * FROM employees WHERE department_id = ", Tok.ph "department_id"]

def srNoMatch : StepResults := [("q1", [[("alpha", Value.int 1), ("beta", Value.int 2)]])]

def stepNeedsIds : Step :=
  { step := 3, query_id := "q2", description := "needs ids",
    sql := [Tok.lit "SELECT * FROM products WHERE id IN ", Tok.ph "product_ids"],
    depends_on := ["q1"], table_used := "products" }

def stepUnresolved : Step :=
  { step := 9, query_id := "q_u", description := "unresolved step",
    sql := [Tok.ph "missing_field"], depends_on := [], table_used := "t" }

def simpleStep : Step :=
  { step := 1, query_id := "q_s", description := "simple step",
    sql := [Tok.lit "SELECT 1"], depends_on := [], table_used := "t" }

def srFindIds : StepResults :=
  [("find_ids", [[("id", Value.int 1)], [("id", Value.int 2)], [("id", Value.int 1)]])]

def rows9 : List Row :=
  [[("name", Value.str "A"), ("qty", Value.int 10)],
   [("name", Value.str "BB"), ("qty", Value.int 5)]]

def planJson (k : Nat) : Json := Json.num k

def oracle3 : Nat → Option String → Except String Json :=
  fun attempt _ => Except.ok (planJson attempt)

def validator3 : Json → Validation := fun p =>
  match p with
  | Json.num 3 => { is_valid := true, reason := "" }
  | _ => { is_valid := false, reason := "rejected" }

def validatorNever : Json → Validation := fun p =>
  match p with
  | Json.num n => { is_valid := false, reason := "reason " ++ toString n }
  | _ => { is_valid := false, reason := "reason" }

def oracleMalformed : Nat → Option String → Except String Json :=
  fun _ _ => Except.error "structural error"

def cfgNoFile : DBConfig :=
  { database_type := some "sqlite", database_path := "enterprise_database.db" }

def cfgBadType : DBConfig := { database_type := some "oracle", database_path := "x" }

def cfgMysql : DBConfig := { database_type := some "mysql", database_path := "" }

def fieldsMissingKey : List (String × Json) :=
  [("execution_plan", Json.arr []), ("tables_used", Json.arr []), ("total_steps", Json.num 1)]

def fieldsNonList : List (String × Json) :=
  [("execution_plan", Json.str "SELECT 1"), ("tables_used", Json.arr []),
   ("total_steps", Json.num 1), ("has_dependencies", Json.bool false)]

def badStep : Json := Json.obj [("step", Json.num 1), ("query_id", Json.str "q1")]

def fieldsBadStep : List (String × Json) :=
  [("execution_plan", Json.arr [badStep]), ("tables_used", Json.arr []),
   ("total_steps", Json.num 1), ("has_dependencies", Json.bool false)]

/-! Helper lemmas. -/

theorem runStep_description (exec : DB) (sr : StepResults) (st : Step) :
    ((runStep exec sr st).1).description = st.description := by
  unfold runStep
  split
  · rfl
  · split
    · rfl
    · split <;> rfl

theorem runSteps_length (exec : DB) :
    ∀ (plan : List Step) (sr : StepResults), (runSteps exec plan sr).length = plan.length := by
  intro plan
  induction plan with
  | nil => intro sr; rfl
  | cons st rest ih => intro sr; simp [runSteps, ih]

theorem runStep_preserves_lookup (exec : DB) (sr : StepResults) (st : Step) (k : String)
    (h : (lookupKey sr k).isSome = true) :
    (lookupKey ((runStep exec sr st).2) k).isSome = true := by
  unfold runStep
  split
  · exact h
  · split
    · exact h
    · split <;>
      · show (lookupKey (srInsert sr st.query_id _) k).isSome = true
        unfold srInsert lookupKey
        split
        · rfl
        · exact h

/-! Claim theorems. -/

/-- C1 counterexample: with a validated two-step plan whose list order
is the reverse of its `step` ordinals, the runner emits the record of
the step with ordinal 2 first — list position, not the `step` field,
determines execution order. -/
theorem stepOrder_counterexample :
    (runSteps emptyExec [stepOrdinalTwo, stepOrdinalOne] []).map OutputRecord.formatted_text =
      ["Step 2 (listed first): No matching data found",
       "Step 1 (listed second): No matching data found"] ∧
    (runSteps emptyExec [stepOrdinalTwo, stepOrdinalOne] []).map OutputRecord.formatted_text ≠
      ["Step 1 (listed second): No matching data found",
       "Step 2 (listed first): No matching data found"] :=
  ⟨rfl, by decide⟩

/-- C1 (amended): the Plan Runner executes the steps of the
`execution_plan` list in their list order, emitting exactly one
OutputRecord per step in that order; the `step` ordinal and
`depends_on` are not consulted for ordering and no step is skipped. -/
theorem stepOrder_list_position :
    ∀ (exec : DB) (plan : List Step) (sr : StepResults),
      (runSteps exec plan sr).map OutputRecord.description = plan.map Step.description := by
  intro exec plan
  induction plan with
  | nil => intro sr; rfl
  | cons st rest ih =>
    intro sr
    simp only [runSteps, List.map_cons]
    rw [runStep_description, ih]

/-- C2 counterexample: `department_id` ends in `_id`, so the suffix
rule classifies it list-typed; resolving the spec's scalar example does
NOT bind the parameter `department_id` to the scalar value 7. -/
theorem scalarExample_counterexample :
    _resolve_query_parameters deptTemplate srDept ["find_top_dept"] ≠
      some ("SELECT * FROM employees WHERE department_id = :department_id",
        [("department_id", ParamValue.scalar (Value.int 7))]) := by
  decide

/-- C2 (amended): `department_id` is classified list-typed by the
suffix rule (it ends in `_id`), and the template resolves with the
parameter `department_id` bound to the deduplicated one-element
collection containing 7, not to a scalar. -/
theorem scalarExample_binds_singleton_list :
    isListParameter "department_id" = true ∧
    _resolve_query_parameters deptTemplate srDept ["find_top_dept"] =
      some ("SELECT * FROM employees WHERE department_id = :department_id",
        [("department_id", ParamValue.list [Value.int 7])]) :=
  ⟨rfl, rfl⟩

/-- C3 counterexample: for the list-typed placeholder `product_ids`,
collecting zero values from non-empty dependency rows (`srNoMatch`)
and the identifier being absent entirely (empty StepResults) both
return `none`, and the runner produces the *identical* OutputRecord in
both cases — the two failure cases are not distinguished. -/
theorem listFailure_counterexample :
    _extract_parameter_value "product_ids" srNoMatch ["q1"] = none ∧
    _extract_parameter_value "product_ids" ([] : StepResults) ["q1"] = none ∧
    (runStep boomExec srNoMatch stepNeedsIds).1 = (runStep boomExec [] stepNeedsIds).1 :=
  ⟨rfl, rfl, by decide⟩

/-- C3 (amended): a list-typed placeholder fails resolution whenever
it collects zero values — both when non-empty dependency rows yield no
match and when the identifier is absent from all dependencies — but
the two cases produce the same error: extraction returns `none` in
both, and the step's OutputRecord (error "Dependency resolution
failed") is a function of the step alone, identical across any two
failing states. -/
theorem listFailure_not_distinguished :
    (∀ (p : String) (sr : StepResults) (deps : List String),
        isListParameter p = true → collectListValues p sr deps = [] →
        _extract_parameter_value p sr deps = none) ∧
    (∀ (exec : DB) (sr sr2 : StepResults) (st : Step),
        _resolve_query_parameters st.sql sr st.depends_on = none →
        _resolve_query_parameters st.sql sr2 st.depends_on = none →
        (runStep exec sr st).1 = (runStep exec sr2 st).1 ∧
        (runStep exec sr st).1.error = some "Dependency resolution failed") := by
  constructor
  · intro p sr deps hp hc
    simp [_extract_parameter_value, hp, hc]
  · intro exec sr sr2 st h1 h2
    unfold runStep
    rw [h1, h2]
    exact ⟨rfl, rfl⟩

/-- C3 witness: the amended theorem applied at the two concrete
failing states. -/
theorem listFailure_not_distinguished_witness :
    _extract_parameter_value "product_ids" srNoMatch ["q1"] = none ∧
    ((runStep boomExec srNoMatch stepNeedsIds).1 = (runStep boomExec [] stepNeedsIds).1 ∧
     (runStep boomExec srNoMatch stepNeedsIds).1.error = some "Dependency resolution failed") :=
  ⟨listFailure_not_distinguished.1 "product_ids" srNoMatch ["q1"] rfl rfl,
   listFailure_not_distinguished.2 boomExec srNoMatch [] stepNeedsIds rfl rfl⟩

/-- C4: a step failure never halts the run — the runner returns one
OutputRecord per step of the plan; a resolution failure is recorded
with empty raw_results, a human-readable message and the error
"Dependency resolution failed"; a store execution error is recorded
with empty raw_results, a human-readable message and the store's error
text. -/
theorem stepFailure_never_halts :
    (∀ (exec : DB) (plan : List Step) (sr : StepResults),
        (runSteps exec plan sr).length = plan.length) ∧
    (∀ (exec : DB) (sr : StepResults) (st : Step),
        _resolve_query_parameters st.sql sr st.depends_on = none →
        (runStep exec sr st).1 =
          { description := st.description,
            formatted_text := "Step " ++ toString st.step ++ " (" ++ st.description ++
              "): Execution failed because a dependent query returned no results.",
            raw_results := [], error := some "Dependency resolution failed" }) ∧
    (∀ (exec : DB) (sr : StepResults) (st : Step) (q : String) (params : Params) (e : String),
        _resolve_query_parameters st.sql sr st.depends_on = some (q, params) →
        exec q params = Except.error e →
        (runStep exec sr st).1 =
          { description := st.description,
            formatted_text := "Step " ++ toString st.step ++ " failed to execute: " ++ e ++
              "\nSQL: " ++ q,
            raw_results := [], error := some e }) := by
  refine ⟨runSteps_length, ?_, ?_⟩
  · intro exec sr st h
    unfold runStep
    rw [h]
  · intro exec sr st q params e h1 h2
    unfold runStep
    rw [h1]
    dsimp only
    rw [h2]

/-- C4 witness: a plan whose first step fails resolution and whose
second fails execution still yields two records, of the stated shapes. -/
theorem stepFailure_never_halts_witness :
    (runSteps boomExec [stepUnresolved, simpleStep] []).length = 2 ∧
    (runStep boomExec [] stepUnresolved).1 =
      { description := "unresolved step",
        formatted_text := "Step 9 (unresolved step): Execution failed because a dependent query returned no results.",
        raw_results := [], error := some "Dependency resolution failed" } ∧
    (runStep boomExec [] simpleStep).1 =
      { description := "simple step",
        formatted_text := "Step 1 failed to execute: boom\nSQL: SELECT 1",
        raw_results := [], error := some "boom" } :=
  ⟨stepFailure_never_halts.1 boomExec [stepUnresolved, simpleStep] [],
   stepFailure_never_halts.2.1 boomExec [] stepUnresolved rfl,
   stepFailure_never_halts.2.2 boomExec [] simpleStep "SELECT 1" [] "boom" rfl rfl⟩

/-- C5: the StepResultSet is left unchanged by a step that fails
resolution or execution; a step whose query executes without error
(including with zero rows) has its query_id recorded, mapped to the
returned row list; and no key is ever removed across a whole run. -/
theorem stepResultSet_monotone :
    (∀ (exec : DB) (sr : StepResults) (st : Step),
        _resolve_query_parameters st.sql sr st.depends_on = none →
        (runStep exec sr st).2 = sr) ∧
    (∀ (exec : DB) (sr : StepResults) (st : Step) (q : String) (params : Params) (e : String),
        _resolve_query_parameters st.sql sr st.depends_on = some (q, params) →
        exec q params = Except.error e →
        (runStep exec sr st).2 = sr) ∧
    (∀ (exec : DB) (sr : StepResults) (st : Step) (q : String) (params : Params)
        (rows : List Row),
        _resolve_query_parameters st.sql sr st.depends_on = some (q, params) →
        exec q params = Except.ok rows →
        (runStep exec sr st).2 = srInsert sr st.query_id rows ∧
        lookupKey ((runStep exec sr st).2) st.query_id = some rows) ∧
    (∀ (exec : DB) (plan : List Step) (sr : StepResults) (k : String),
        (lookupKey sr k).isSome = true →
        (lookupKey (runState exec plan sr) k).isSome = true) := by
  refine ⟨?_, ?_, ?_, ?_⟩
  · intro exec sr st h
    unfold runStep
    rw [h]
  · intro exec sr st q params e h1 h2
    unfold runStep
    rw [h1]
    dsimp only
    rw [h2]
  · intro exec sr st q params rows h1 h2
    unfold runStep
    rw [h1]
    dsimp only
    rw [h2]
    by_cases hr : rows.isEmpty <;> simp [hr, srInsert, lookupKey]
  · intro exec plan
    induction plan with
    | nil => intro sr k h; exact h
    | cons st rest ih =>
      intro sr k h
      exact ih ((runStep exec sr st).2) k (runStep_preserves_lookup exec sr st k h)

/-- C5 witness: the monotonicity theorem applied at concrete steps —
an unresolved step and a failing execution leave the set unchanged, a
successful zero-row query is recorded as the empty list, and an
existing key survives a run. -/
theorem stepResultSet_monotone_witness :
    (runStep boomExec [("a", [])] stepUnresolved).2 = [("a", [])] ∧
    (runStep boomExec [] simpleStep).2 = [] ∧
    ((runStep emptyExec [] simpleStep).2 = srInsert [] "q_s" [] ∧
     lookupKey ((runStep emptyExec [] simpleStep).2) "q_s" = some []) ∧
    (lookupKey (runState emptyExec [simpleStep] [("a", [])]) "a").isSome = true :=
  ⟨stepResultSet_monotone.1 boomExec [("a", [])] stepUnresolved rfl,
   stepResultSet_monotone.2.1 boomExec [] simpleStep "SELECT 1" [] "boom" rfl rfl,
   stepResultSet_monotone.2.2.1 emptyExec [] simpleStep "SELECT 1" [] [] rfl rfl,
   stepResultSet_monotone.2.2.2 emptyExec [simpleStep] [("a", [])] "a" rfl⟩

/-- C7: with dependency `find_ids` yielding rows with ids 1, 2, 1, the
list-typed placeholder `product_ids` resolves to a duplicate-free
collection whose members are exactly the values 1 and 2. -/
theorem listResolutionExample :
    isListParameter "product_ids" = true ∧
    ∃ l, _extract_parameter_value "product_ids" srFindIds ["find_ids"] =
        some (ParamValue.list l) ∧
      l.Nodup ∧ l.length = 2 ∧ Value.int 1 ∈ l ∧ Value.int 2 ∈ l :=
  ⟨rfl, [Value.int 2, Value.int 1], rfl, by decide, rfl, by decide, by decide⟩

theorem acquireAux_oracleCount_le (oracle : Nat → Option String → Except String Json)
    (validator : Json → Validation) :
    ∀ (r attempt : Nat) (lastError : Option String) (o v rj : Nat),
      (acquireAux oracle validator attempt r lastError o v rj).oracleCount ≤ o + r := by
  intro r
  induction r with
  | zero =>
    intro attempt lastError o v rj
    simp [acquireAux, AcqResult.oracleCount]
  | succ n ih =>
    intro attempt lastError o v rj
    simp only [acquireAux]
    cases oracle attempt lastError with
    | error e =>
      exact le_trans (ih (attempt + 1) lastError (o + 1) v rj) (by omega)
    | ok plan =>
      dsimp only
      by_cases hv : (validator plan).is_valid = true
      · rw [if_pos hv]
        simp only [AcqResult.oracleCount]
        omega
      · rw [if_neg hv]
        exact le_trans
          (ih (attempt + 1) (some (validator plan).reason) (o + 1) (v + 1) (rj + 1))
          (by omega)

/-- C6: the acquisition loop calls the Oracle at most `maxAttempts`
times; an attempt whose plan the Validator accepts terminates the loop
immediately as `succeeded` with no further oracle or validator calls;
in the concrete scenario where the Oracle's plans of attempts 1 and 2
are rejected and attempt 3 is accepted with `maxAttempts = 3`, the
loop succeeds after exactly 3 oracle calls and 2 validator rejections;
and when no attempt is accepted within `maxAttempts = 2`, the loop
exhausts carrying the last validator reason and no plan is handed on
to store execution. -/
theorem acquisitionLoop_bounded :
    (∀ (oracle : Nat → Option String → Except String Json) (validator : Json → Validation)
        (m : Nat), (acquisitionLoop m oracle validator).oracleCount ≤ m) ∧
    (∀ (oracle : Nat → Option String → Except String Json) (validator : Json → Validation)
        (attempt r : Nat) (lastError : Option String) (o v rj : Nat) (plan : Json),
        oracle attempt lastError = Except.ok plan → (validator plan).is_valid = true →
        acquireAux oracle validator attempt (r + 1) lastError o v rj =
          AcqResult.succeeded plan (o + 1) (v + 1) rj) ∧
    acquisitionLoop 3 oracle3 validator3 = AcqResult.succeeded (planJson 3) 3 3 2 ∧
    acquisitionLoop 2 oracle3 validatorNever = AcqResult.exhausted (some "reason 2") 2 2 2 ∧
    planToExecute (acquisitionLoop 2 oracle3 validatorNever) = none := by
  refine ⟨?_, ?_, rfl, rfl, rfl⟩
  · intro oracle validator m
    have h := acquireAux_oracleCount_le oracle validator m 1 none 0 0 0
    simpa [acquisitionLoop] using h
  · intro oracle validator attempt r lastError o v rj plan h1 h2
    simp [acquireAux, h1, h2]

/-- C6 witness: the bound and the immediate-success equation applied
at the concrete three-attempt scenario. -/
theorem acquisitionLoop_bounded_witness :
    (acquisitionLoop 3 oracle3 validator3).oracleCount ≤ 3 ∧
    acquireAux oracle3 validator3 3 1 none 2 2 2 = AcqResult.succeeded (planJson 3) 3 3 2 :=
  ⟨acquisitionLoop_bounded.1 oracle3 validator3 3,
   acquisitionLoop_bounded.2.1 oracle3 validator3 3 0 none 2 2 2 (planJson 3) rfl rfl⟩

theorem checkTopKeys_error (j : Json) :
    ∀ ks : List String, (∃ k ∈ ks, jsonHasKey j k = false) →
      ∃ e, checkTopKeys j ks = Except.error e := by
  intro ks
  induction ks with
  | nil => rintro ⟨k, hk, _⟩; cases hk
  | cons a as ih =>
    rintro ⟨k, hk, hfalse⟩
    by_cases ha : jsonHasKey j a = true
    · rcases List.mem_cons.mp hk with rfl | hmem
      · rw [ha] at hfalse; cases hfalse
      · obtain ⟨e, he⟩ := ih ⟨k, hmem, hfalse⟩
        exact ⟨e, by simp [checkTopKeys, ha, he]⟩
    · exact ⟨"模型返回的JSON缺少键 " ++ a, by simp [checkTopKeys, ha]⟩

theorem checkStepKeys_ok_hasKey (i : Nat) (s : Json) :
    ∀ ks : List String, checkStepKeys i s ks = Except.ok () →
      ∀ k ∈ ks, jsonHasKey s k = true := by
  intro ks
  induction ks with
  | nil => intro _ k hk; cases hk
  | cons a as ih =>
    intro h k hk
    by_cases ha : jsonHasKey s a = true
    · simp only [checkStepKeys, if_pos ha] at h
      rcases List.mem_cons.mp hk with rfl | hmem
      · exact ha
      · exact ih h k hmem
    · simp [checkStepKeys, ha] at h

theorem checkSteps_error :
    ∀ (steps : List Json) (i : Nat),
      (∃ s ∈ steps, ∃ k ∈ stepRequiredKeys, jsonHasKey s k = false) →
      ∃ e, checkSteps i steps = Except.error e := by
  intro steps
  induction steps with
  | nil => rintro i ⟨s, hs, _⟩; cases hs
  | cons a as ih =>
    rintro i ⟨s, hs, k, hk, hfalse⟩
    cases hca : checkStepKeys i a stepRequiredKeys with
    | error e => exact ⟨e, by simp [checkSteps, hca]⟩
    | ok u =>
      cases u
      rcases List.mem_cons.mp hs with rfl | hmem
      · rw [checkStepKeys_ok_hasKey i s stepRequiredKeys hca k hk] at hfalse
        cases hfalse
      · obtain ⟨e, he⟩ := ih (i + 1) ⟨s, hmem, k, hk, hfalse⟩
        exact ⟨e, by simp [checkSteps, hca, he]⟩

/-- C8: plan ingestion rejects with a structural error every oracle
response whose top-level object misses a required key, whose
`execution_plan` value is not a list, or one of whose steps lacks a
required step field; such an error becomes the error-string return of
the generation function; and in the acquisition loop an attempt whose
generation result is an error simply advances to the next attempt
without calling the Validator. -/
theorem malformedPlan_rejected :
    (∀ (fields : List (String × Json)),
        (∃ k ∈ requiredTopKeys, lookupKey fields k = none) →
        ∃ e, checkPlan (Json.obj fields) = Except.error e) ∧
    (∀ (fields : List (String × Json)) (v : Json),
        lookupKey fields "execution_plan" = some v → (∀ l, v ≠ Json.arr l) →
        ∃ e, checkPlan (Json.obj fields) = Except.error e) ∧
    (∀ (fields : List (String × Json)) (steps : List Json),
        lookupKey fields "execution_plan" = some (Json.arr steps) →
        (∃ s ∈ steps, ∃ k ∈ stepRequiredKeys, jsonHasKey s k = false) →
        ∃ e, checkPlan (Json.obj fields) = Except.error e) ∧
    (∀ (j : Json) (e : String), checkPlan j = Except.error e →
        ∃ e2, generate_sql_with_dependencies (some j) = Except.error e2) ∧
    (∀ (oracle : Nat → Option String → Except String Json) (validator : Json → Validation)
        (attempt r : Nat) (lastError : Option String) (o v rj : Nat) (msg : String),
        oracle attempt lastError = Except.error msg →
        acquireAux oracle validator attempt (r + 1) lastError o v rj =
          acquireAux oracle validator (attempt + 1) r lastError (o + 1) v rj) := by
  refine ⟨?_, ?_, ?_, ?_, ?_⟩
  · rintro fields ⟨k, hk, hnone⟩
    obtain ⟨e, he⟩ := checkTopKeys_error (Json.obj fields) requiredTopKeys
      ⟨k, hk, by simp [jsonHasKey, hnone]⟩
    exact ⟨e, by simp [checkPlan, he]⟩
  · intro fields v hlook hv
    cases hck : checkTopKeys (Json.obj fields) requiredTopKeys with
    | error e => exact ⟨e, by simp [checkPlan, hck]⟩
    | ok u =>
      cases u
      have hg : jsonGet (Json.obj fields) "execution_plan" = v := by
        simp [jsonGet, hlook]
      cases v with
      | arr l => exact absurd rfl (hv l)
      | null => exact ⟨"execution_plan 必须是列表格式", by simp [checkPlan, hck, hg]⟩
      | bool b => exact ⟨"execution_plan 必须是列表格式", by simp [checkPlan, hck, hg]⟩
      | num n => exact ⟨"execution_plan 必须是列表格式", by simp [checkPlan, hck, hg]⟩
      | str s => exact ⟨"execution_plan 必须是列表格式", by simp [checkPlan, hck, hg]⟩
      | obj l => exact ⟨"execution_plan 必须是列表格式", by simp [checkPlan, hck, hg]⟩
  · intro fields steps hlook hbad
    cases hck : checkTopKeys (Json.obj fields) requiredTopKeys with
    | error e => exact ⟨e, by simp [checkPlan, hck]⟩
    | ok u =>
      cases u
      have hg : jsonGet (Json.obj fields) "execution_plan" = Json.arr steps := by
        simp [jsonGet, hlook]
      obtain ⟨e, he⟩ := checkSteps_error steps 0 hbad
      exact ⟨e, by simp [checkPlan, hck, hg, he]⟩
  · intro j e h
    exact ⟨"错误：解析模型返回的JSON失败。错误详情: " ++ e,
      by simp [generate_sql_with_dependencies, h]⟩
  · intro oracle validator attempt r lastError o v rj msg h
    simp [acquireAux, h]

/-- C8 witness: the rejection theorem applied to three concrete
malformed plans (a missing top-level key, a non-list plan, a step
missing required fields) and to a concrete failed generation attempt. -/
theorem malformedPlan_rejected_witness :
    (∃ e, checkPlan (Json.obj fieldsMissingKey) = Except.error e) ∧
    (∃ e, checkPlan (Json.obj fieldsNonList) = Except.error e) ∧
    (∃ e, checkPlan (Json.obj fieldsBadStep) = Except.error e) ∧
    acquireAux oracleMalformed validator3 1 1 none 0 0 0 =
      acquireAux oracleMalformed validator3 2 0 none 1 0 0 :=
  ⟨malformedPlan_rejected.1 fieldsMissingKey ⟨"has_dependencies", by decide, rfl⟩,
   malformedPlan_rejected.2.1 fieldsNonList (Json.str "SELECT 1") rfl
     (fun l h => Json.noConfusion h),
   malformedPlan_rejected.2.2.1 fieldsBadStep [badStep] rfl
     ⟨badStep, List.mem_singleton.mpr rfl, "description", by decide, rfl⟩,
   malformedPlan_rejected.2.2.2.2 oracleMalformed validator3 1 0 none 0 0 0
     "structural error" rfl⟩

theorem padFmt_length (s : String) (w : Nat) : (padFmt s w).length = max s.length w := by
  have h : (String.mk (List.replicate (w - s.length) ' ')).length = w - s.length := by
    show (List.replicate (w - s.length) ' ').length = w - s.length
    exact List.length_replicate _ _
  unfold padFmt
  rw [String.length_append, h]
  omega

theorem foldr_max_le_of_mem {l : List Nat} {x : Nat} (hx : x ∈ l) : x ≤ l.foldr max 0 := by
  induction l with
  | nil => cases hx
  | cons a as ih =>
    rcases List.mem_cons.mp hx with rfl | h
    · exact le_max_left _ _
    · exact le_trans (ih h) (le_max_right _ _)

theorem cell_le_colWidth (rows : List Row) (row : Row) (c : String) (h : row ∈ rows) :
    (rowGetStr row c).length ≤ colWidth rows c := by
  unfold colWidth
  exact le_trans
    (foldr_max_le_of_mem (List.mem_map_of_mem (fun r => (rowGetStr r c).length) h))
    (le_max_right _ _)

/-- C9: for a non-empty row list the formatter emits a header line, a
separator rule, and one line per row (plus the title line), every
header cell and every data cell of a column is padded to exactly the
column width — the maximum of the header length and the longest
rendered cell — and on the example rows the widths of `name` and `qty`
are 4 and 3, giving the shown aligned rendering. -/
theorem formatter_alignment :
    (∀ (sid : Nat) (desc : String) (rows : List Row), rows ≠ [] →
        (formatResultLines sid desc rows).length = rows.length + 3) ∧
    (∀ (rows : List Row) (c : String),
        (padFmt c (colWidth rows c)).length = colWidth rows c) ∧
    (∀ (rows : List Row) (row : Row) (c : String), row ∈ rows →
        (padFmt (rowGetStr row c) (colWidth rows c)).length = colWidth rows c) ∧
    colWidth rows9 "name" = 4 ∧ colWidth rows9 "qty" = 3 ∧
    _format_step_result 1 "demo" rows9 =
      "步骤 1 - demo: (共 2 条记录)\nname | qty\n----------\nA    | 10 \nBB   | 5  " := by
  refine ⟨?_, ?_, ?_, rfl, rfl, rfl⟩
  · intro sid desc rows _
    simp [formatResultLines]
  · intro rows c
    rw [padFmt_length]
    exact max_eq_right (le_max_left _ _)
  · intro rows row c h
    rw [padFmt_length]
    exact max_eq_right (cell_le_colWidth rows row c h)

/-- C9 witness: the formatter theorem applied to the example rows. -/
theorem formatter_alignment_witness :
    (formatResultLines 1 "demo" rows9).length = rows9.length + 3 ∧
    (padFmt (rowGetStr [("name", Value.str "BB"), ("qty", Value.int 5)] "name")
        (colWidth rows9 "name")).length = colWidth rows9 "name" :=
  ⟨formatter_alignment.1 1 "demo" rows9 (by decide),
   formatter_alignment.2.2.1 rows9 [("name", Value.str "BB"), ("qty", Value.int 5)] "name"
     (by decide)⟩

/-- C10: whenever engine creation fails, the runner executes no step
and returns the single "Database Connection Error" record with empty
raw_results, the error field set, and a formatted_text carrying the
error — for any plan and any store behavior; and engine creation does
fail on a missing sqlite database file, on an unsupported database
type, and on a connection failure for a recognized type. -/
theorem connectionError_single_record :
    (∀ (cfg : DBConfig) (isfile : Bool) (engineError : Option String) (e : String)
        (exec : DB) (plan : List Step),
        _create_engine cfg isfile engineError = Except.error e →
        execute_queries_and_format_with_dependencies cfg isfile engineError exec plan =
          [{ description := "Database Connection Error", formatted_text := "Error: " ++ e,
             raw_results := [], error := some e }]) ∧
    (∀ (cfg : DBConfig) (engineError : Option String), cfg.database_type = some "sqlite" →
        _create_engine cfg false engineError =
          Except.error ("Database file not found: " ++ cfg.database_path)) ∧
    (∀ (cfg : DBConfig) (isfile : Bool) (engineError : Option String) (t : String),
        cfg.database_type = some t → t ≠ "sqlite" → t ≠ "mysql" → t ≠ "postgresql" →
        t ≠ "sqlserver" →
        _create_engine cfg isfile engineError =
          Except.error ("Unsupported database type: " ++ t)) ∧
    (∀ (cfg : DBConfig) (isfile : Bool) (msg : String), cfg.database_type = some "mysql" →
        _create_engine cfg isfile (some msg) =
          Except.error ("Failed to connect to the database: " ++ msg)) := by
  refine ⟨?_, ?_, ?_, ?_⟩
  · intro cfg isfile engineError e exec plan h
    unfold execute_queries_and_format_with_dependencies
    rw [h]
  · intro cfg engineError h
    obtain ⟨dt, path⟩ := cfg
    simp only [DBConfig.database_type] at h
    subst h
    rfl
  · intro cfg isfile engineError t hcfg h1 h2 h3 h4
    obtain ⟨dt, path⟩ := cfg
    simp only [DBConfig.database_type] at hcfg
    subst hcfg
    simp only [_create_engine]
    rw [if_neg h1, if_neg h2, if_neg h3, if_neg h4]
  · intro cfg isfile msg h
    obtain ⟨dt, path⟩ := cfg
    simp only [DBConfig.database_type] at h
    subst h
    rfl

/-- C10 witness: the connection-error theorem applied to a concrete
missing sqlite file, an unsupported type, and a failing mysql
connection. -/
theorem connectionError_single_record_witness :
    execute_queries_and_format_with_dependencies cfgNoFile false none boomExec [simpleStep] =
      [{ description := "Database Connection Error",
         formatted_text := "Error: Database file not found: enterprise_database.db",
         raw_results := [],
         error := some "Database file not found: enterprise_database.db" }] ∧
    _create_engine cfgNoFile false none =
      Except.error "Database file not found: enterprise_database.db" ∧
    _create_engine cfgBadType true none = Except.error "Unsupported database type: oracle" ∧
    _create_engine cfgMysql true (some "refused") =
      Except.error "Failed to connect to the database: refused" :=
  ⟨connectionError_single_record.1 cfgNoFile false none
     "Database file not found: enterprise_database.db" boomExec [simpleStep] rfl,
   connectionError_single_record.2.1 cfgNoFile none rfl,
   connectionError_single_record.2.2.1 cfgBadType true none "oracle" rfl
     (by decide) (by decide) (by decide) (by decide),
   connectionError_single_record.2.2.2 cfgMysql true "refused" rfl⟩
